import Mathlib

/-!
Shallow embedding of the PhishRx scoring core (src/components/scam_classifier.py,
src/components/privacy_detector.py, src/utils.py) and proofs about the frozen
claims over it.

Modelling conventions:
* Python `float` arithmetic in the risk scorer is modelled over `ℚ` (the
  constants 0.10/0.15/0.05/0.2/0.6/3.0 and the comparisons involved are exact
  in binary-independent rational arithmetic; no claim depends on rounding).
* Python's `re` module is external library code, not part of this repository;
  pattern evaluation is therefore a parameter (`findIter`-style oracles) of the
  functions that call it, and concrete instantiations used in counterexamples
  are hand-traced ground truth of the fixed pattern table on the given input
  (or an executable transcription of the single pattern involved).
* The torch model call inside `_ml_analysis`'s `try:` block is modelled as an
  `Except`-valued backend; `Except.error` is the Python exception path.
* The character-distribution entropy body (`numpy` float log2 sum) is a real
  number whose value no claim depends on; it is abstracted as a rational-valued
  oracle carried in the classifier state, while the `len(text) == 0` guard of
  `_calculate_entropy` is modelled explicitly.
-/

/-- Python default `str.strip()` whitespace set (ASCII part; the inputs in
this development are ASCII). -/
def isPySpace (c : Char) : Bool :=
  c == ' ' || c == '\t' || c == '\n' || c == '\x0d' || c == '\x0b' || c == '\x0c'

/-- Python `str.strip()` on the character list: drop leading and trailing whitespace. -/
def stripList (cs : List Char) : List Char :=
  ((cs.dropWhile isPySpace).reverse.dropWhile isPySpace).reverse

/-- Python `text.strip()`. -/
def pyStrip (s : String) : String :=
  ⟨stripList s.data⟩

/-- Python `text.lower()` (ASCII case mapping, character-wise). -/
def pyLower (s : String) : String :=
  ⟨s.data.map Char.toLower⟩

/-- Tests whether `sub` is a prefix of `hay` (character lists). -/
def listIsPrefix : List Char → List Char → Bool
  | [], _ => true
  | _ :: _, [] => false
  | a :: as, b :: bs => a == b && listIsPrefix as bs

/-- Tests whether `sub` occurs as a contiguous substring of `hay` (character lists). -/
def listContainsSub : List Char → List Char → Bool
  | hay, sub =>
    match hay with
    | [] => sub.isEmpty
    | _ :: t => listIsPrefix sub hay || listContainsSub t sub

/-- Python `sub in hay` substring membership on strings. -/
def pyContains (hay sub : String) : Bool :=
  listContainsSub hay.data sub.data

/-- Case-fold + trim normalization used by the deduplication claims. -/
def normalizeText (s : String) : String :=
  pyLower (pyStrip s)

/-! ## scam_classifier.py: data model -/

/-- Result dict of `ScamClassifier._ml_analysis` (keys `"confidence"` and
`"prediction"`; the success-only `"all_probs"` key is never read downstream and
is omitted). -/
structure MLResult where
  confidence : ℚ
  prediction : String
deriving Repr, DecidableEq

/-- Feature dict produced by `ScamClassifier._extract_features` (fixed key
set). Counts and 0/1 indicators are `Nat` as in the source; `entropy` is the
one real-valued entry. -/
structure FeatureVector where
  urgency_words : Nat
  suspicious_urls : Nat
  password_requests : Nat
  financial_terms : Nat
  generic_greetings : Nat
  length : Nat
  entropy : ℚ
  has_popup_keywords : Nat
deriving Repr, DecidableEq

/-- State of a `ScamClassifier` instance as far as scoring is concerned:
`model = none` is the fallback state (`self.model is None`); otherwise the
backend maps the input text either to an exception (`Except.error`, the
`except` path of `_ml_analysis`) or to the (confidence, prediction) pair the
torch code computes. `entropyBody` abstracts the floating-point entropy sum of
`_calculate_entropy` for nonempty text. -/
structure ScamClassifier where
  model : Option (String → Except String (ℚ × String))
  entropyBody : String → ℚ

/-- Result dict of `ScamClassifier.analyze_scam_risk`. The `ml_confidence` key
is present only on the normal branch (`Option` models key presence) and the
`features` entry is the feature dict as an insertion-ordered association list
(the empty-input branch returns the empty dict `{}`). -/
structure RiskAssessment where
  severity : String
  reasons : List String
  confidence : ℚ
  risk_score : ℚ
  ml_confidence : Option ℚ
  features : List (String × ℚ)
deriving Repr, DecidableEq

/-! ## scam_classifier.py: feature extraction -/

/-- Try to match the regex `https?://[^\s]+` at the head of `cs`
(Python `re` semantics: the optional `s` is tried greedily, `[^\s]+` is a
maximal nonempty run of non-whitespace; if the run after the scheme is empty
the position fails entirely, since backtracking into `http` cannot make `://`
match the remaining `s://…` or `//…`). Returns the matched text and the rest
of the input after the match. -/
def tryUrlAt (cs : List Char) : Option (List Char × List Char) :=
  if cs.take 8 = "https://".data then
    let body := (cs.drop 8).takeWhile (fun c => !isPySpace c)
    if body = [] then none
    else some ("https://".data ++ body, (cs.drop 8).dropWhile (fun c => !isPySpace c))
  else if cs.take 7 = "http://".data then
    let body := (cs.drop 7).takeWhile (fun c => !isPySpace c)
    if body = [] then none
    else some ("http://".data ++ body, (cs.drop 7).dropWhile (fun c => !isPySpace c))
  else none

/-- Left-to-right non-overlapping scan of `re.finditer(r'https?://[^\s]+', …)`.
Each step consumes at least one character, so `fuel := cs.length` suffices
exactly. -/
def urlScan : Nat → List Char → List (List Char)
  | 0, _ => []
  | _ + 1, [] => []
  | fuel + 1, c :: rest =>
    match tryUrlAt (c :: rest) with
    | some (m, r) => m :: urlScan fuel r
    | none => urlScan fuel rest

/-- Python `re.findall(r'https?://[^\s]+', text)` as the list of matched URL strings. -/
def findUrls (text : String) : List String :=
  (urlScan text.data.length text.data).map (fun cs => ⟨cs⟩)

def urgency_terms : List String :=
  ["urgent", "immediately", "asap", "action required", "verify now"]

def suspicious_domains : List String :=
  ["bit.ly", "tinyurl", "click-here", "verify-account"]

def password_terms : List String :=
  ["password", "login", "credentials", "account verification"]

def financial_terms_list : List String :=
  ["paypal", "bank", "credit card", "ssn", "social security"]

def greetings_list : List String :=
  ["dear user", "dear customer", "valued member"]

def popup_terms : List String :=
  ["popup", "modal", "overlay", "dialog", "window", "alert", "notification"]

/-- Embeds `ScamClassifier._count_urgency_indicators`. -/
def count_urgency_indicators (text : String) : Nat :=
  (urgency_terms.filter (fun t => pyContains text t)).length

/-- Embeds `ScamClassifier._find_suspicious_urls`. -/
def find_suspicious_urls (text : String) : Nat :=
  ((findUrls text).filter
    (fun url => suspicious_domains.any (fun d => pyContains url d))).length

/-- Embeds `ScamClassifier._check_password_requests`. -/
def check_password_requests (text : String) : Nat :=
  if password_terms.any (fun t => pyContains text t) then 1 else 0

/-- Embeds `ScamClassifier._check_financial_terms`. -/
def check_financial_terms (text : String) : Nat :=
  if financial_terms_list.any (fun t => pyContains text t) then 1 else 0

/-- Embeds `ScamClassifier._check_generic_greetings`. -/
def check_generic_greetings (text : String) : Nat :=
  if greetings_list.any (fun t => pyContains text t) then 1 else 0

/-- Embeds `ScamClassifier._check_popup_keywords`. -/
def check_popup_keywords (text : String) : Nat :=
  if popup_terms.any (fun t => pyContains text t) then 1 else 0

/-- Embeds `ScamClassifier._calculate_entropy`: the `len(text) == 0` guard is from the
source; the nonempty body (a float log2 sum) is the classifier's entropy
oracle. -/
def calculate_entropy (C : ScamClassifier) (text : String) : ℚ :=
  if text.length = 0 then 0 else C.entropyBody text

/-- Embeds `ScamClassifier._extract_features` (dict literal, insertion order kept in
`featuresToList` below). -/
def extract_features (C : ScamClassifier) (text : String) : FeatureVector :=
  let text_lower := pyLower text
  { urgency_words := count_urgency_indicators text_lower
    suspicious_urls := find_suspicious_urls text_lower
    password_requests := check_password_requests text_lower
    financial_terms := check_financial_terms text_lower
    generic_greetings := check_generic_greetings text_lower
    length := text.length
    entropy := calculate_entropy C text
    has_popup_keywords := check_popup_keywords text_lower }

/-- The feature dict as the insertion-ordered association list it is in the
source. -/
def featuresToList (f : FeatureVector) : List (String × ℚ) :=
  [("urgency_words", (f.urgency_words : ℚ)),
   ("suspicious_urls", (f.suspicious_urls : ℚ)),
   ("password_requests", (f.password_requests : ℚ)),
   ("financial_terms", (f.financial_terms : ℚ)),
   ("generic_greetings", (f.generic_greetings : ℚ)),
   ("length", (f.length : ℚ)),
   ("entropy", f.entropy),
   ("has_popup_keywords", (f.has_popup_keywords : ℚ))]

/-! ## scam_classifier.py: classifier adapter, risk scorer, severity -/

/-- Embeds `ScamClassifier._ml_analysis`: fallback dict when no model, `except`
branch mapped to the error dict, otherwise the backend's output. Totality of
this function is the "never raises" contract. -/
def ml_analysis (C : ScamClassifier) (text : String) : MLResult :=
  match C.model with
  | none => { confidence := 0, prediction := "fallback" }
  | some run =>
    match run text with
    | Except.error _ => { confidence := 0, prediction := "error" }
    | Except.ok (c, p) => { confidence := c, prediction := p }

/-- Embeds `ScamClassifier._calculate_risk_score`. -/
def calculate_risk_score (features : FeatureVector) (ml : MLResult) : ℚ :=
  let base_score : ℚ :=
    (if features.urgency_words > 0
      then 0.10 * min ((features.urgency_words : ℚ) / 3.0) 1.0 else 0) +
    (if features.suspicious_urls > 0
      then 0.15 * min ((features.suspicious_urls : ℚ) / 3.0) 1.0 else 0) +
    (if features.password_requests > 0
      then 0.10 * min ((features.password_requests : ℚ) / 3.0) 1.0 else 0) +
    (if features.financial_terms > 0
      then 0.05 * min ((features.financial_terms : ℚ) / 3.0) 1.0 else 0)
  let ml_boost : ℚ := ml.confidence * 0.6
  let base_score := if features.has_popup_keywords ≠ 0 then base_score + 0.2 else base_score
  min (base_score + ml_boost) 1.0

/-- Embeds `ScamClassifier._classify_threat`. -/
def classify_threat (features : FeatureVector) (ml : MLResult) (risk_score : ℚ) :
    String × List String :=
  let reasons : List String :=
    (if ml.prediction ∈ (["phishing", "urgent", "financial"] : List String)
      then ["ml_detected_" ++ ml.prediction] else []) ++
    (if features.urgency_words > 0 then ["urgency_language"] else []) ++
    (if features.suspicious_urls > 0 then ["suspicious_url"] else []) ++
    (if features.password_requests > 0 then ["password_request"] else []) ++
    (if features.has_popup_keywords ≠ 0 then ["suspicious_popup"] else [])
  let severity : String :=
    if risk_score ≥ 0.8 ∨ ml.prediction = "phishing" then "critical"
    else if risk_score ≥ 0.6 then "high"
    else if risk_score ≥ 0.4 then "medium"
    else "low"
  (severity, reasons)

/-- Embeds `ScamClassifier._empty_result` (note `features` is the empty dict `{}` and
there is no `ml_confidence` key). -/
def empty_result : RiskAssessment :=
  { severity := "low", reasons := [], confidence := 0, risk_score := 0,
    ml_confidence := none, features := [] }

/-- Embeds `ScamClassifier.analyze_scam_risk`. -/
def analyze_scam_risk (C : ScamClassifier) (text : String) : RiskAssessment :=
  if pyStrip text = "" then empty_result
  else
    let features := extract_features C text
    let ml := ml_analysis C text
    let risk_score := calculate_risk_score features ml
    let sr := classify_threat features ml risk_score
    { severity := sr.1, reasons := sr.2, confidence := risk_score,
      risk_score := risk_score, ml_confidence := some ml.confidence,
      features := featuresToList features }

/-! ## utils.py: SUSPICIOUS_PATTERNS and find_suspicious_text

`re.finditer` is Python-library code external to this repository, so pattern
evaluation is a parameter `findIter : pattern → text → matched substrings`
(each entry a `match.group(0)`, in match order; `find_suspicious_text` passes
`re.IGNORECASE` for every pattern). All deduplication claims are proved for
every such oracle, hence in particular for the real regex engine. Regex
braces are written with `\x7b`/`\x7d` escapes. -/

def PAT_VERIFICATION : String :=
  "\\b(verify|confirm)\\s+(your|my)\\s+(account|identity|information)\\b"

def SUSPICIOUS_PATTERNS : List (String × String) :=
  [("https?://\\S+", "🔗 Contains URL"),
   (PAT_VERIFICATION, "🔒 Verification prompt"),
   ("\\b(reset|update)\\s+(your|my)\\s+password\\b", "🔐 Password reset"),
   ("\\b(urgent|immediate(ly)?|action\\s+(required|needed)|final\\s+notice)\\b", "⚠️ Urgency"),
   ("\\bclick\\s+here\\b", "🖱️ Generic 'Click Here'"),
   ("\\baccount\\s+(suspended|locked|compromised|closed|deactivated)\\b", "🚫 Account Threat"),
   ("\\b(security|unusual|suspicious)\\s+(alert|activity|login)\\b", "🛡️ Security Alert"),
   ("\\b(won|prize|claim|lottery|winner)\\b", "💰 Prize/Lottery Scam"),
   ("\\b(invoice|payment|due|overdue|bill)\\b", "🧾 Fake Invoice/Payment"),
   ("\\b(dear\\s+(user|customer|client)|hello\\b((?!\\s+\\w+)|$))", "🏷️ Generic Greeting"),
   ("\\b(password|passcode|credential)\\b", "🔑 Password Mentioned"),
   ("\\b(account\\s+number|ssn|social\\s+security|bank\\s+details)\\b", "👤 Sensitive Info Request"),
   ("\\b(job\\s+offer|hiring|recruiting|interview)\\b", "💼 Suspicious Job Offer")]

/-- The `results` list of `find_suspicious_text` after the collection loops:
for each pattern in table order, each match's `group(0).strip()` paired with
the pattern's label. The empty-text early return skips the loops entirely.
(The per-pattern `re.error` handler never fires for this fixed valid table;
the oracle is total.) -/
def rawFindings (findIter : String → String → List String) (text : String) :
    List (String × String) :=
  if text = "" then []
  else SUSPICIOUS_PATTERNS.flatMap
    (fun pl => (findIter pl.1 text).map (fun m => (pyStrip m, pl.2)))

/-- The deduplication loop of `find_suspicious_text`: key is
`match_text.lower()`, kept iff `len(key) > 2` and the key is unseen. -/
def dedupFindings : List (String × String) → List String → List (String × String)
  | [], _ => []
  | (t, l) :: rest, seen =>
    let key := pyLower t
    if key.length > 2 ∧ key ∉ seen then
      (t, l) :: dedupFindings rest (key :: seen)
    else
      dedupFindings rest seen

/-- Embeds `utils.find_suspicious_text`, parameterized by the regex engine. -/
def find_suspicious_text (findIter : String → String → List String)
    (text : String) : List (String × String) :=
  dedupFindings (rawFindings findIter text) []

/-! ## privacy_detector.py -/

def PAT_PII_EMAIL : String :=
  "[a-zA-Z0-9._%+-]+@[a-zA-Z0-9.-]+\\.[a-zA-Z]\x7b2,\x7d"

def PAT_PII_PHONE : String :=
  "(\\+?\\d\x7b1,3\x7d[-.\\s]?)?(\\(?\\d\x7b3\x7d\\)?[-.\\s]?)?\\d\x7b3\x7d[-.\\s]?\\d\x7b4\x7d"

def PAT_PII_CREDIT_CARD : String :=
  "\\b(?:\\d\x7b4\x7d[-.\\s]?)\x7b3\x7d\\d\x7b4\x7d\\b|\\b\\d\x7b13,16\x7d\\b"

def PAT_SENSITIVE_KEYWORD : String :=
  "\\b(password|ssn|social security|account number|username|login|verify your account)\\b"

/-- The `PRIVACY_PATTERNS` dict, in insertion order. -/
def PRIVACY_PATTERNS : List (String × String) :=
  [("PII_EMAIL", PAT_PII_EMAIL),
   ("PII_PHONE", PAT_PII_PHONE),
   ("PII_CREDIT_CARD", PAT_PII_CREDIT_CARD),
   ("SENSITIVE_KEYWORD", PAT_SENSITIVE_KEYWORD)]

/-- The match stream of `analyze_text_privacy`'s nested loops: patterns in
dict order, each match's `group(0).strip()` tagged with its finding type;
`re.IGNORECASE` is passed exactly for `SENSITIVE_KEYWORD`. -/
def rawPrivacy (findIter : String → Bool → String → List String) (text : String) :
    List (String × String) :=
  PRIVACY_PATTERNS.flatMap
    (fun tp => (findIter tp.2 (tp.1 == "SENSITIVE_KEYWORD") text).map
      (fun m => (tp.1, pyStrip m)))

/-- The `found_matches` filter of `analyze_text_privacy`: a finding is kept
iff its stripped text is nonempty and the exact `(type, text)` pair is new. -/
def dedupPrivacy : List (String × String) → List (String × String) → List (String × String)
  | [], _ => []
  | (ty, mt) :: rest, found =>
    if mt ≠ "" ∧ (ty, mt) ∉ found then
      (ty, mt) :: dedupPrivacy rest ((ty, mt) :: found)
    else
      dedupPrivacy rest found

/-- Embeds `privacy_detector.analyze_text_privacy`, parameterized by the regex
engine; each returned pair is one finding dict `{'type': ·, 'text': ·}`. -/
def analyze_text_privacy (findIter : String → Bool → String → List String)
    (text : String) : List (String × String) :=
  if text = "" then []
  else dedupPrivacy (rawPrivacy findIter text) []

/-! ## An executable transcription of the SENSITIVE_KEYWORD regex

`\b(password|ssn|social security|account number|username|login|verify your
account)\b` with `re.IGNORECASE` is a word-boundary keyword alternation; the
following is its `finditer`, used to instantiate the engine oracle on the
concrete counterexample texts. -/

/-- Regex `\w` for the ASCII texts involved. -/
def pyIsWordChar (c : Char) : Bool :=
  c.isAlphanum || c == '_'

def sensitive_keyword_alts : List String :=
  ["password", "ssn", "social security", "account number", "username",
   "login", "verify your account"]

/-- Trailing `\b` after an alternative (all alternatives end in a word
character, so the next character must be absent or a non-word character). -/
def boundaryAfter : List Char → Bool
  | [] => true
  | c :: _ => !pyIsWordChar c

/-- Try one (lowercase) alternative at the head of `cs`, case-insensitively;
returns the matched text (original case) and the rest. -/
def matchAltAt (alt : List Char) (cs : List Char) : Option (List Char × List Char) :=
  let pre := cs.take alt.length
  if pre.length = alt.length ∧ pre.map Char.toLower = alt ∧
      boundaryAfter (cs.drop alt.length) then
    some (pre, cs.drop alt.length)
  else none

/-- Python alternation: first alternative (in pattern order) whose whole
match, including the trailing `\b`, succeeds. -/
def firstAltMatch : List String → List Char → Option (List Char × List Char)
  | [], _ => none
  | a :: as, cs =>
    match matchAltAt a.data cs with
    | some r => some r
    | none => firstAltMatch as cs

/-- Left-to-right non-overlapping scan; `prevW` tracks whether the previous
character is a word character (the leading `\b`). Each step consumes at least
one character, so `fuel := cs.length` suffices. -/
def kwScan : Nat → Bool → List Char → List (List Char)
  | 0, _, _ => []
  | _ + 1, _, [] => []
  | fuel + 1, prevW, c :: rest =>
    if prevW then kwScan fuel (pyIsWordChar c) rest
    else
      match firstAltMatch sensitive_keyword_alts (c :: rest) with
      | some (m, r) => m :: kwScan fuel true r
      | none => kwScan fuel (pyIsWordChar c) rest

/-- The `re.finditer(PAT_SENSITIVE_KEYWORD, text, re.IGNORECASE)` match texts. -/
def sensitiveKeywordMatches (text : String) : List String :=
  (kwScan text.data.length false text.data).map (fun cs => ⟨cs⟩)

/-- Regex-engine oracle for texts that contain no `'@'` and no digit: the
`PII_EMAIL`, `PII_PHONE` and `PII_CREDIT_CARD` patterns each require such a
character, so on those texts they have no matches, and `SENSITIVE_KEYWORD`
matches are computed by the transcription above. Both concrete texts it is
applied to below satisfy that side condition. -/
def privacyRe (p : String) (_ignorecase : Bool) (t : String) : List String :=
  if p = PAT_SENSITIVE_KEYWORD then sensitiveKeywordMatches t else []

def verifyTwiceText : String := "verify your account verify your account"

/-- Hand-traced ground truth of `re.finditer(p, verifyTwiceText,
re.IGNORECASE)` for every pattern `p` of `SUSPICIOUS_PATTERNS`: only the
verification-prompt pattern matches, once at offset 0 and once at offset 20;
every other pattern requires a token (`http`, `click`, `dear`, a listed
keyword, …) that the text does not contain. -/
def suspReVerifyTwice (p : String) (t : String) : List String :=
  if p = PAT_VERIFICATION ∧ t = verifyTwiceText then
    ["verify your account", "verify your account"]
  else []

/-! ## Spec-side definitions for the refinement claims C2 and C3 -/

/-- The risk-score formula in the words of claim C2: per-feature terms
`weight × min(value/3.0, 1.0)` for active features (0 when the value is 0),
a flat 0.20 when `popupKeywords` is 1, `confidence × 0.60`, saturated at 1. -/
def riskScoreSpec (f : FeatureVector) (ml : MLResult) : ℚ :=
  let term : ℚ → Nat → ℚ := fun w v => if v > 0 then w * min ((v : ℚ) / 3.0) 1.0 else 0
  min (term 0.10 f.urgency_words + term 0.15 f.suspicious_urls +
    term 0.10 f.password_requests + term 0.05 f.financial_terms +
    (if f.has_popup_keywords = 1 then 0.20 else 0) + ml.confidence * 0.60) 1.0

/-- The severity cascade in the words of claim C3, first match wins. -/
def severitySpec (score : ℚ) (label : String) : String :=
  if score ≥ 0.8 ∨ label = "phishing" then "critical"
  else if score ≥ 0.6 then "high"
  else if score ≥ 0.4 then "medium"
  else "low"

/-- A classifier whose backend call always fails (timeout), as in claim C8. -/
def timeoutClassifier : ScamClassifier :=
  ⟨some (fun _ => Except.error "timeout"), fun _ => 0⟩

def c8Text : String := "URGENT! Verify your password now: http://bit.ly/x"

/-! ## Helper lemmas about the risk scorer -/

theorem weight_term_nonneg (w : ℚ) (hw : 0 ≤ w) (v : Nat) :
    0 ≤ if v > 0 then w * min ((v : ℚ) / 3.0) 1.0 else 0 := by
  split_ifs with h
  · exact mul_nonneg hw (le_min (by positivity) (by norm_num))
  · exact le_refl 0

theorem calculate_risk_score_mem_unit (f : FeatureVector) (ml : MLResult)
    (h0 : 0 ≤ ml.confidence) (h1 : ml.confidence ≤ 1) :
    0 ≤ calculate_risk_score f ml ∧ calculate_risk_score f ml ≤ 1 := by
  have t1 := weight_term_nonneg 0.10 (by norm_num) f.urgency_words
  have t2 := weight_term_nonneg 0.15 (by norm_num) f.suspicious_urls
  have t3 := weight_term_nonneg 0.10 (by norm_num) f.password_requests
  have t4 := weight_term_nonneg 0.05 (by norm_num) f.financial_terms
  have t5 : 0 ≤ ml.confidence * 0.6 := mul_nonneg h0 (by norm_num)
  simp only [calculate_risk_score]
  constructor
  · refine le_min ?_ (by norm_num)
    by_cases hp : f.has_popup_keywords ≠ 0
    · rw [if_pos hp]; linarith
    · rw [if_neg hp]; linarith
  · exact le_trans (min_le_right _ _) (by norm_num)

theorem ml_analysis_confidence_mem_unit (C : ScamClassifier) (text : String)
    (hconf : ∀ run q p t, C.model = some run → run t = Except.ok (q, p) →
      0 ≤ q ∧ q ≤ 1) :
    0 ≤ (ml_analysis C text).confidence ∧ (ml_analysis C text).confidence ≤ 1 := by
  cases hm : C.model with
  | none => simp [ml_analysis, hm]
  | some run =>
    cases hr : run text with
    | error e => simp [ml_analysis, hm, hr]
    | ok qp =>
      obtain ⟨q, p⟩ := qp
      have hq := hconf run q p text hm hr
      simpa [ml_analysis, hm, hr] using hq

theorem classify_threat_severity_mem (f : FeatureVector) (ml : MLResult) (s : ℚ) :
    (classify_threat f ml s).1 ∈ (["critical", "high", "medium", "low"] : List String) := by
  unfold classify_threat
  dsimp only
  split_ifs <;> simp

/-! ## Claims C1, C2, C3, C4 -/

/-- C1: for every input text the scoring pipeline `analyze_scam_risk` is a
total function (no exception), its `risk_score` lies in [0,1], and its
`severity` is one of "critical"/"high"/"medium"/"low", assuming every
confidence the classifier backend can produce lies in [0,1]. -/
theorem claim_C1_score_and_severity_wellformed (C : ScamClassifier) (text : String)
    (hconf : ∀ run q p t, C.model = some run → run t = Except.ok (q, p) →
      0 ≤ q ∧ q ≤ 1) :
    (0 ≤ (analyze_scam_risk C text).risk_score ∧
      (analyze_scam_risk C text).risk_score ≤ 1) ∧
    (analyze_scam_risk C text).severity ∈
      (["critical", "high", "medium", "low"] : List String) := by
  by_cases h : pyStrip text = ""
  · simp [analyze_scam_risk, h, empty_result]
  · have hml := ml_analysis_confidence_mem_unit C text hconf
    have hs := calculate_risk_score_mem_unit (extract_features C text)
      (ml_analysis C text) hml.1 hml.2
    have hsev := classify_threat_severity_mem (extract_features C text)
      (ml_analysis C text)
      (calculate_risk_score (extract_features C text) (ml_analysis C text))
    unfold analyze_scam_risk
    rw [if_neg h]
    exact ⟨hs, hsev⟩

theorem claim_C1_witness :
    (0 ≤ (analyze_scam_risk ⟨none, fun _ => 0⟩ "hi").risk_score ∧
      (analyze_scam_risk ⟨none, fun _ => 0⟩ "hi").risk_score ≤ 1) ∧
    (analyze_scam_risk ⟨none, fun _ => 0⟩ "hi").severity ∈
      (["critical", "high", "medium", "low"] : List String) :=
  claim_C1_score_and_severity_wellformed ⟨none, fun _ => 0⟩ "hi"
    (by intro run q p t hm hr; exact absurd hm (by simp))

/-- C2: `_calculate_risk_score` equals the weighted-sum formula of the claim:
capped per-feature terms (urgency 0.10, suspicious URLs 0.15, password 0.10,
financial 0.05, each `weight × min(value/3, 1)` when active), a flat 0.20 when
`popupKeywords` is 1, plus `confidence × 0.60`, saturated at 1.0 (the popup
indicator is the 0/1 value `_check_popup_keywords` produces). -/
theorem claim_C2_risk_score_formula (f : FeatureVector) (ml : MLResult)
    (hp : f.has_popup_keywords ≤ 1) :
    calculate_risk_score f ml = riskScoreSpec f ml := by
  obtain ⟨uw, su, pr, ft, gg, ln, ent, pk⟩ := f
  rcases Nat.le_one_iff_eq_zero_or_eq_one.mp hp with h | h <;>
    subst h <;>
    simp only [calculate_risk_score, riskScoreSpec] <;>
    norm_num

theorem claim_C2_witness :
    calculate_risk_score ⟨1, 2, 1, 0, 0, 10, 0, 1⟩ ⟨1/2, "safe"⟩ =
      riskScoreSpec ⟨1, 2, 1, 0, 0, 10, 0, 1⟩ ⟨1/2, "safe"⟩ :=
  claim_C2_risk_score_formula ⟨1, 2, 1, 0, 0, 10, 0, 1⟩ ⟨1/2, "safe"⟩ (by decide)

/-- C3: the severity component of `_classify_threat` is exactly the cascade
`score ≥ 0.8 ∨ label = "phishing" → critical; score ≥ 0.6 → high;
score ≥ 0.4 → medium; otherwise low`, checked in that order. -/
theorem claim_C3_severity_thresholds (f : FeatureVector) (ml : MLResult) (s : ℚ) :
    (classify_threat f ml s).1 = severitySpec s ml.prediction := rfl

/-- C4: `_ml_analysis` is total (the embedding is a total function; the
Python `try` block catches every inference/tokenization exception), and on
every failure mode — no model, or a backend exception — the result's
prediction is "error" or "fallback" with confidence exactly 0. -/
theorem claim_C4_ml_failure_degraded (C : ScamClassifier) (text : String)
    (h : C.model = none ∨ ∃ run e, C.model = some run ∧ run text = Except.error e) :
    ((ml_analysis C text).prediction = "error" ∨
      (ml_analysis C text).prediction = "fallback") ∧
    (ml_analysis C text).confidence = 0 := by
  rcases h with h | ⟨run, e, hm, hr⟩
  · simp [ml_analysis, h]
  · simp [ml_analysis, hm, hr]

theorem claim_C4_witness :
    (((ml_analysis ⟨none, fun _ => 0⟩ "x").prediction = "error" ∨
      (ml_analysis ⟨none, fun _ => 0⟩ "x").prediction = "fallback") ∧
    (ml_analysis ⟨none, fun _ => 0⟩ "x").confidence = 0) ∧
    (((ml_analysis ⟨some (fun _ => Except.error "timeout"), fun _ => 0⟩ "x").prediction = "error" ∨
      (ml_analysis ⟨some (fun _ => Except.error "timeout"), fun _ => 0⟩ "x").prediction = "fallback") ∧
    (ml_analysis ⟨some (fun _ => Except.error "timeout"), fun _ => 0⟩ "x").confidence = 0) :=
  ⟨claim_C4_ml_failure_degraded ⟨none, fun _ => 0⟩ "x" (Or.inl rfl),
   claim_C4_ml_failure_degraded ⟨some (fun _ => Except.error "timeout"), fun _ => 0⟩ "x"
     (Or.inr ⟨_, "timeout", rfl, rfl⟩)⟩

/-! ## Claims C7, C8 (both corrected), C9, C10 -/

/-- C7 counterexample: on empty input the `features` entry of the result is
the empty dict `{}` — it has no `"entropy"` or `"length"` key at all — so it
is not the zero-valued FeatureVector (entropy 0, length 0) the claim states. -/
theorem claim_C7_counterexample :
    (analyze_scam_risk ⟨none, fun _ => 0⟩ "").features = [] ∧
    (analyze_scam_risk ⟨none, fun _ => 0⟩ "").features.lookup "entropy" = none ∧
    (analyze_scam_risk ⟨none, fun _ => 0⟩ "").features.lookup "length" = none := by
  refine ⟨rfl, rfl, rfl⟩

/-- C7 amended: empty string input is not an error — the pipeline returns
score 0, severity "low", empty reasons, the Finding and PrivacyFinding lists
are empty, and the result's feature mapping is the empty dict (it contains no
entries, rather than zero-valued entropy/length entries). -/
theorem claim_C7_empty_input_amended (C : ScamClassifier)
    (fi : String → String → List String)
    (fip : String → Bool → String → List String) :
    analyze_scam_risk C "" = empty_result ∧
    (analyze_scam_risk C "").risk_score = 0 ∧
    (analyze_scam_risk C "").severity = "low" ∧
    (analyze_scam_risk C "").reasons = [] ∧
    (analyze_scam_risk C "").features = [] ∧
    find_suspicious_text fi "" = [] ∧
    analyze_text_privacy fip "" = [] :=
  ⟨rfl, rfl, rfl, rfl, rfl, rfl, rfl⟩

theorem c8_features : extract_features timeoutClassifier c8Text =
    { urgency_words := 1, suspicious_urls := 1, password_requests := 1,
      financial_terms := 0, generic_greetings := 0, length := 49,
      entropy := 0, has_popup_keywords := 0 } := by
  have h1 : count_urgency_indicators (pyLower c8Text) = 1 := by decide
  have h2 : find_suspicious_urls (pyLower c8Text) = 1 := by decide
  have h3 : check_password_requests (pyLower c8Text) = 1 := by decide
  have h4 : check_financial_terms (pyLower c8Text) = 0 := by decide
  have h5 : check_generic_greetings (pyLower c8Text) = 0 := by decide
  have h6 : check_popup_keywords (pyLower c8Text) = 0 := by decide
  have h7 : c8Text.length = 49 := by decide
  simp [extract_features, calculate_entropy, timeoutClassifier,
    h1, h2, h3, h4, h5, h6, h7]

theorem c8_ml : ml_analysis timeoutClassifier c8Text =
    { confidence := 0, prediction := "error" } := rfl

theorem c8_risk_score :
    calculate_risk_score ⟨1, 1, 1, 0, 0, 49, 0, 0⟩ ⟨0, "error"⟩ = 7 / 60 := by
  simp only [calculate_risk_score]
  norm_num

theorem c8_severity :
    classify_threat ⟨1, 1, 1, 0, 0, 49, 0, 0⟩ ⟨0, "error"⟩ (7 / 60) =
      ("low", ["urgency_language", "suspicious_url", "password_request"]) := by
  simp only [classify_threat]
  norm_num
  decide

theorem c8_assessment :
    analyze_scam_risk timeoutClassifier c8Text =
      { severity := "low",
        reasons := ["urgency_language", "suspicious_url", "password_request"],
        confidence := 7 / 60, risk_score := 7 / 60, ml_confidence := some 0,
        features := [("urgency_words", 1), ("suspicious_urls", 1),
          ("password_requests", 1), ("financial_terms", 0),
          ("generic_greetings", 0), ("length", 49), ("entropy", 0),
          ("has_popup_keywords", 0)] } := by
  have hstrip : ¬ pyStrip c8Text = "" := by decide
  unfold analyze_scam_risk
  rw [if_neg hstrip]
  simp only [c8_features, c8_ml, c8_risk_score, c8_severity]
  rfl

/-- C8 counterexample: with an always-failing classifier backend, the claimed
text triggers exactly the urgency, suspicious-URL and password heuristics, but
their capped contributions sum to 7/60 ≈ 0.117 < 0.4, so the severity is
"low", not at least "medium" as the claim states. -/
theorem claim_C8_counterexample :
    (analyze_scam_risk timeoutClassifier c8Text).severity = "low" ∧
    (analyze_scam_risk timeoutClassifier c8Text).severity ≠ "medium" ∧
    (analyze_scam_risk timeoutClassifier c8Text).severity ≠ "high" ∧
    (analyze_scam_risk timeoutClassifier c8Text).severity ≠ "critical" := by
  rw [c8_assessment]
  refine ⟨rfl, by decide, by decide, by decide⟩

/-- C8 amended: with an always-failing classifier backend the text yields
risk score 7/60 (≈ 0.117, below the 0.4 "medium" threshold) and severity
"low"; the three heuristic reasons are present and no `ml_detected_*` reason
appears. -/
theorem claim_C8_degradation_amended :
    (analyze_scam_risk timeoutClassifier c8Text).risk_score = 7 / 60 ∧
    (analyze_scam_risk timeoutClassifier c8Text).severity = "low" ∧
    (analyze_scam_risk timeoutClassifier c8Text).reasons =
      ["urgency_language", "suspicious_url", "password_request"] ∧
    ((analyze_scam_risk timeoutClassifier c8Text).reasons.any
      (fun r => pyContains r "ml_detected_")) = false := by
  rw [c8_assessment]
  refine ⟨rfl, rfl, rfl, by decide⟩

/-- C9: with every other feature and the classifier output held fixed,
`_calculate_risk_score` is monotone non-decreasing in the `urgency_words`
feature value (the claim's own formalisation of "adding one more occurrence
of an urgency term never decreases the score"). -/
theorem claim_C9_urgency_monotone (f : FeatureVector) (ml : MLResult)
    (u u' : Nat) (h : u ≤ u') :
    calculate_risk_score { f with urgency_words := u } ml ≤
      calculate_risk_score { f with urgency_words := u' } ml := by
  have hT : (if u > 0 then (0.10 : ℚ) * min ((u : ℚ) / 3.0) 1.0 else 0) ≤
      (if u' > 0 then (0.10 : ℚ) * min ((u' : ℚ) / 3.0) 1.0 else 0) := by
    rcases Nat.eq_zero_or_pos u with h0 | h0
    · rw [h0]
      simpa using weight_term_nonneg 0.10 (by norm_num) u'
    · have hu' : 0 < u' := lt_of_lt_of_le h0 h
      rw [if_pos h0, if_pos hu']
      refine mul_le_mul_of_nonneg_left (min_le_min ?_ le_rfl) (by norm_num)
      have : (u : ℚ) ≤ (u' : ℚ) := by exact_mod_cast h
      linarith
  obtain ⟨uw, su, pr, ft, gg, ln, ent, pk⟩ := f
  simp only [calculate_risk_score]
  by_cases hp : pk ≠ 0
  · rw [if_pos hp, if_pos hp]
    exact min_le_min (by linarith) le_rfl
  · rw [if_neg hp, if_neg hp]
    exact min_le_min (by linarith) le_rfl

theorem claim_C9_witness :
    calculate_risk_score ⟨1, 0, 0, 0, 0, 5, 0, 0⟩ ⟨0, "error"⟩ ≤
      calculate_risk_score ⟨2, 0, 0, 0, 0, 5, 0, 0⟩ ⟨0, "error"⟩ :=
  claim_C9_urgency_monotone ⟨1, 0, 0, 0, 0, 5, 0, 0⟩ ⟨0, "error"⟩ 1 2 (by decide)

/-- C10: on both branches of `analyze_scam_risk` the `confidence` field of
the result equals its `risk_score` field; the classifier's own confidence is
exposed separately under `ml_confidence`, a key present exactly on the normal
branch (absent from the empty-input result). -/
theorem claim_C10_confidence_is_risk_score (C : ScamClassifier) (text : String) :
    (analyze_scam_risk C text).confidence = (analyze_scam_risk C text).risk_score ∧
    (pyStrip text = "" → (analyze_scam_risk C text).ml_confidence = none) ∧
    (pyStrip text ≠ "" →
      (analyze_scam_risk C text).ml_confidence = some (ml_analysis C text).confidence) := by
  unfold analyze_scam_risk
  by_cases h : pyStrip text = "" <;> simp [h, empty_result]

theorem claim_C10_witness :
    ((analyze_scam_risk ⟨none, fun _ => 0⟩ "").confidence =
      (analyze_scam_risk ⟨none, fun _ => 0⟩ "").risk_score ∧
      (analyze_scam_risk ⟨none, fun _ => 0⟩ "").ml_confidence = none) ∧
    ((analyze_scam_risk ⟨none, fun _ => 0⟩ "hi").confidence =
      (analyze_scam_risk ⟨none, fun _ => 0⟩ "hi").risk_score ∧
      (analyze_scam_risk ⟨none, fun _ => 0⟩ "hi").ml_confidence =
        some (ml_analysis ⟨none, fun _ => 0⟩ "hi").confidence) :=
  ⟨⟨(claim_C10_confidence_is_risk_score ⟨none, fun _ => 0⟩ "").1,
    (claim_C10_confidence_is_risk_score ⟨none, fun _ => 0⟩ "").2.1 (by decide)⟩,
   ⟨(claim_C10_confidence_is_risk_score ⟨none, fun _ => 0⟩ "hi").1,
    (claim_C10_confidence_is_risk_score ⟨none, fun _ => 0⟩ "hi").2.2 (by decide)⟩⟩

/-! ## Deduplication lemmas for find_suspicious_text (claim C5) -/

theorem dropWhile_head_not {p : Char → Bool} {L : List Char} {a : Char} {r : List Char}
    (h : List.dropWhile p L = a :: r) : ¬ p a = true := by
  induction L with
  | nil => cases h
  | cons x xs ih =>
    by_cases hx : p x
    · rw [List.dropWhile_cons_of_pos hx] at h
      exact ih h
    · rw [List.dropWhile_cons_of_neg hx] at h
      injection h with h1 _
      subst h1
      exact hx

theorem stripList_idem (cs : List Char) : stripList (stripList cs) = stripList cs := by
  have key : ∀ l : List Char,
      List.dropWhile isPySpace (List.rdropWhile isPySpace (List.dropWhile isPySpace l)) =
        List.rdropWhile isPySpace (List.dropWhile isPySpace l) := by
    intro l
    cases hR : List.rdropWhile isPySpace (List.dropWhile isPySpace l) with
    | nil => simp
    | cons a t' =>
      obtain ⟨t, ht⟩ := List.rdropWhile_prefix isPySpace (List.dropWhile isPySpace l)
      rw [hR] at ht
      have hdw : List.dropWhile isPySpace l = a :: (t' ++ t) := by
        rw [← ht]
        rfl
      exact List.dropWhile_cons_of_neg (dropWhile_head_not hdw)
  show List.rdropWhile isPySpace (List.dropWhile isPySpace
      (List.rdropWhile isPySpace (List.dropWhile isPySpace cs))) =
    List.rdropWhile isPySpace (List.dropWhile isPySpace cs)
  rw [key cs, List.rdropWhile_idempotent]

theorem pyStrip_idem (s : String) : pyStrip (pyStrip s) = pyStrip s :=
  congrArg String.mk (stripList_idem s.data)

theorem normalizeText_of_stripped {s : String} (h : pyStrip s = s) :
    normalizeText s = pyLower s := by
  unfold normalizeText
  rw [h]

theorem rawFindings_stripped (fi : String → String → List String) (text : String) :
    ∀ x ∈ rawFindings fi text, pyStrip x.1 = x.1 := by
  intro x hx
  unfold rawFindings at hx
  by_cases ht : text = ""
  · rw [if_pos ht] at hx
    cases hx
  · rw [if_neg ht] at hx
    obtain ⟨pl, _, hx⟩ := List.mem_flatMap.mp hx
    obtain ⟨m, _, rfl⟩ := List.mem_map.mp hx
    exact pyStrip_idem m

theorem dedupFindings_mem {res : List (String × String)} {seen : List String}
    {x : String × String} (hx : x ∈ dedupFindings res seen) :
    x ∈ res ∧ 2 < (pyLower x.1).length ∧ pyLower x.1 ∉ seen := by
  induction res generalizing seen with
  | nil => simp [dedupFindings] at hx
  | cons hd tl ih =>
    obtain ⟨t, l⟩ := hd
    simp only [dedupFindings] at hx
    by_cases hc : (pyLower t).length > 2 ∧ pyLower t ∉ seen
    · rw [if_pos hc] at hx
      rcases List.mem_cons.mp hx with rfl | hx'
      · exact ⟨List.mem_cons_self _ _, hc.1, hc.2⟩
      · obtain ⟨h1, h2, h3⟩ := ih hx'
        exact ⟨List.mem_cons_of_mem _ h1, h2,
          fun hmem => h3 (List.mem_cons_of_mem _ hmem)⟩
    · rw [if_neg hc] at hx
      obtain ⟨h1, h2, h3⟩ := ih hx
      exact ⟨List.mem_cons_of_mem _ h1, h2, h3⟩

theorem dedupFindings_pairwise (res : List (String × String)) (seen : List String) :
    List.Pairwise (fun a b => pyLower a.1 ≠ pyLower b.1) (dedupFindings res seen) := by
  induction res generalizing seen with
  | nil => simp [dedupFindings]
  | cons hd tl ih =>
    obtain ⟨t, l⟩ := hd
    simp only [dedupFindings]
    by_cases hc : (pyLower t).length > 2 ∧ pyLower t ∉ seen
    · rw [if_pos hc]
      refine List.Pairwise.cons ?_ (ih _)
      intro b hb heq
      have hmem := (dedupFindings_mem hb).2.2
      exact hmem (by rw [← heq]; exact List.mem_cons_self _ _)
    · rw [if_neg hc]
      exact ih _

theorem dedupFindings_filter_of_mem_seen {res : List (String × String)}
    {seen : List String} {k : String} (hk : k ∈ seen) :
    (dedupFindings res seen).filter (fun x => pyLower x.1 == k) = [] := by
  rw [List.filter_eq_nil_iff]
  intro a ha
  have hnotin := (dedupFindings_mem ha).2.2
  simp only [beq_iff_eq]
  intro heq
  exact hnotin (by rw [heq]; exact hk)

theorem dedupFindings_filter (res : List (String × String)) :
    ∀ (seen : List String) (k : String), 2 < k.length → k ∉ seen →
      (dedupFindings res seen).filter (fun x => pyLower x.1 == k) =
        (res.filter (fun x => pyLower x.1 == k)).take 1 := by
  induction res with
  | nil =>
    intro seen k _ _
    simp [dedupFindings]
  | cons hd tl ih =>
    intro seen k hlen hk
    obtain ⟨t, l⟩ := hd
    simp only [dedupFindings]
    by_cases hc : (pyLower t).length > 2 ∧ pyLower t ∉ seen
    · rw [if_pos hc]
      by_cases hk2 : pyLower t = k
      · subst hk2
        have h1 : (dedupFindings tl (pyLower t :: seen)).filter
            (fun x => pyLower x.1 == pyLower t) = [] :=
          dedupFindings_filter_of_mem_seen (List.mem_cons_self _ _)
        simp [List.filter_cons, h1]
      · have hk' : k ∉ pyLower t :: seen := by
          intro hmem
          rcases List.mem_cons.mp hmem with h | h
          · exact hk2 h.symm
          · exact hk h
        rw [List.filter_cons, List.filter_cons]
        have hbeq : (pyLower t == k) = false := by
          simp [hk2]
        simp only [hbeq]
        rw [ih (pyLower t :: seen) k hlen hk']
        simp
    · rw [if_neg hc]
      by_cases hk2 : pyLower t = k
      · exact absurd (by rw [hk2]; exact ⟨hlen, hk⟩ :
          (pyLower t).length > 2 ∧ pyLower t ∉ seen) hc
      · rw [ih seen k hlen hk, List.filter_cons]
        have hbeq : (pyLower t == k) = false := by
          simp [hk2]
        simp only [hbeq]
        simp

/-- C5: for every regex-engine oracle and every input text, the Finding list
of `find_suspicious_text` (i) retains only findings whose case-fold+trim
normalized text has length > 2, (ii) contains no two findings with the same
(category, normalized text) — indeed no two findings share a normalized text
at all — and (iii) for each normalized key occurring among the collected raw
matches with length > 2, exactly one Finding survives, namely the first raw
match in pattern-table order, so its label comes from the first matching
pattern. -/
theorem claim_C5_findings_dedup (fi : String → String → List String) (text : String) :
    (∀ a ∈ find_suspicious_text fi text, 2 < (normalizeText a.1).length) ∧
    List.Pairwise (fun a b => ¬(a.2 = b.2 ∧ normalizeText a.1 = normalizeText b.1))
      (find_suspicious_text fi text) ∧
    (∀ k : String, 2 < k.length →
      (∃ r ∈ rawFindings fi text, normalizeText r.1 = k) →
      ∃ a, (find_suspicious_text fi text).filter (fun x => normalizeText x.1 == k) = [a] ∧
        ((rawFindings fi text).filter (fun x => normalizeText x.1 == k)).head? = some a) := by
  have hstr := rawFindings_stripped fi text
  have hstrOut : ∀ x ∈ find_suspicious_text fi text, pyStrip x.1 = x.1 := by
    intro x hx
    simp only [find_suspicious_text] at hx
    exact hstr x (dedupFindings_mem hx).1
  refine ⟨?_, ?_, ?_⟩
  · intro a ha
    have h2 := (dedupFindings_mem (by simpa [find_suspicious_text] using ha)).2.1
    rw [normalizeText_of_stripped (hstrOut a ha)]
    exact h2
  · have hp : List.Pairwise (fun a b => pyLower a.1 ≠ pyLower b.1)
        (find_suspicious_text fi text) := dedupFindings_pairwise _ _
    refine List.Pairwise.imp_of_mem ?_ hp
    intro a b ha hb hne ⟨_, heq⟩
    rw [normalizeText_of_stripped (hstrOut a ha),
      normalizeText_of_stripped (hstrOut b hb)] at heq
    exact hne heq
  · intro k hlen ⟨r, hr, hrk⟩
    have hk' : pyLower r.1 = k := by
      rw [← normalizeText_of_stripped (hstr r hr)]
      exact hrk
    have hconv_out : (find_suspicious_text fi text).filter
        (fun x => normalizeText x.1 == k) =
        (find_suspicious_text fi text).filter (fun x => pyLower x.1 == k) :=
      List.filter_congr (fun x hx => by rw [normalizeText_of_stripped (hstrOut x hx)])
    have hconv_raw : (rawFindings fi text).filter (fun x => normalizeText x.1 == k) =
        (rawFindings fi text).filter (fun x => pyLower x.1 == k) :=
      List.filter_congr (fun x hx => by rw [normalizeText_of_stripped (hstr x hx)])
    have hne : (rawFindings fi text).filter (fun x => pyLower x.1 == k) ≠ [] := by
      intro hempty
      have : r ∈ (rawFindings fi text).filter (fun x => pyLower x.1 == k) :=
        List.mem_filter.mpr ⟨hr, by simp [hk']⟩
      rw [hempty] at this
      cases this
    obtain ⟨a, t, hat⟩ := List.exists_cons_of_ne_nil hne
    refine ⟨a, ?_, ?_⟩
    · rw [hconv_out]
      show (dedupFindings (rawFindings fi text) []).filter (fun x => pyLower x.1 == k) = [a]
      rw [dedupFindings_filter _ [] k hlen (by simp), hat]
      rfl
    · rw [hconv_raw, hat]
      rfl

theorem claim_C5_witness :
    (∀ a ∈ find_suspicious_text suspReVerifyTwice verifyTwiceText,
      2 < (normalizeText a.1).length) ∧
    (∃ a, (find_suspicious_text suspReVerifyTwice verifyTwiceText).filter
        (fun x => normalizeText x.1 == "verify your account") = [a] ∧
      ((rawFindings suspReVerifyTwice verifyTwiceText).filter
        (fun x => normalizeText x.1 == "verify your account")).head? = some a) :=
  ⟨(claim_C5_findings_dedup suspReVerifyTwice verifyTwiceText).1,
   (claim_C5_findings_dedup suspReVerifyTwice verifyTwiceText).2.2
     "verify your account" (by decide)
     ⟨("verify your account", "🔒 Verification prompt"), by decide, by decide⟩⟩

/-! ## Deduplication lemmas for analyze_text_privacy (claim C6) -/

theorem dedupPrivacy_mem {res found : List (String × String)} {x : String × String}
    (hx : x ∈ dedupPrivacy res found) : x ∈ res ∧ x.2 ≠ "" ∧ x ∉ found := by
  induction res generalizing found with
  | nil => simp [dedupPrivacy] at hx
  | cons hd tl ih =>
    obtain ⟨ty, mt⟩ := hd
    simp only [dedupPrivacy] at hx
    by_cases hc : mt ≠ "" ∧ (ty, mt) ∉ found
    · rw [if_pos hc] at hx
      rcases List.mem_cons.mp hx with rfl | hx'
      · exact ⟨List.mem_cons_self _ _, hc.1, hc.2⟩
      · obtain ⟨h1, h2, h3⟩ := ih hx'
        exact ⟨List.mem_cons_of_mem _ h1, h2,
          fun hmem => h3 (List.mem_cons_of_mem _ hmem)⟩
    · rw [if_neg hc] at hx
      obtain ⟨h1, h2, h3⟩ := ih hx
      exact ⟨List.mem_cons_of_mem _ h1, h2, h3⟩

theorem dedupPrivacy_pairwise (res found : List (String × String)) :
    List.Pairwise (fun a b => a ≠ b) (dedupPrivacy res found) := by
  induction res generalizing found with
  | nil => simp [dedupPrivacy]
  | cons hd tl ih =>
    obtain ⟨ty, mt⟩ := hd
    simp only [dedupPrivacy]
    by_cases hc : mt ≠ "" ∧ (ty, mt) ∉ found
    · rw [if_pos hc]
      refine List.Pairwise.cons ?_ (ih _)
      intro b hb heq
      have hmem := (dedupPrivacy_mem hb).2.2
      exact hmem (by rw [← heq]; exact List.mem_cons_self _ _)
    · rw [if_neg hc]
      exact ih _

theorem rawPrivacy_stripped (fi : String → Bool → String → List String) (text : String) :
    ∀ x ∈ rawPrivacy fi text, pyStrip x.2 = x.2 := by
  intro x hx
  unfold rawPrivacy at hx
  obtain ⟨tp, _, hx⟩ := List.mem_flatMap.mp hx
  obtain ⟨m, _, rfl⟩ := List.mem_map.mp hx
  exact pyStrip_idem m

/-- C6 counterexample: privacy deduplication keys on the exact stripped match
text, with no case-folding, so the text "Password password" (whose
SENSITIVE_KEYWORD pattern matches are "Password" and "password" under
IGNORECASE) retains two findings of the same category whose case-fold+trim
normalized texts are equal — refuting the claim that no two privacy findings
share the same (category, case-folded trimmed text). -/
theorem claim_C6_counterexample :
    analyze_text_privacy privacyRe "Password password" =
      [("SENSITIVE_KEYWORD", "Password"), ("SENSITIVE_KEYWORD", "password")] ∧
    (("SENSITIVE_KEYWORD", "Password") : String × String) ≠
      ("SENSITIVE_KEYWORD", "password") ∧
    normalizeText "Password" = normalizeText "password" := by
  refine ⟨by decide, by decide, by decide⟩

/-- C6 amended: privacy findings are deduplicated by the exact
(category, stripped matched text) pair — without case-folding and without a
length > 2 filter: every retained finding has a nonempty, whitespace-trimmed
text and no two retained findings agree on both category and exact text.
The claim's concrete example still holds: a text containing
"verify your account" twice with identical casing yields exactly one
SENSITIVE_KEYWORD PrivacyFinding and exactly one verification-prompt
Finding. -/
theorem claim_C6_privacy_dedup_amended :
    (∀ (fi : String → Bool → String → List String) (text : String),
      List.Pairwise (fun a b => ¬(a.1 = b.1 ∧ a.2 = b.2))
        (analyze_text_privacy fi text) ∧
      ∀ a ∈ analyze_text_privacy fi text, pyStrip a.2 = a.2 ∧ a.2 ≠ "") ∧
    analyze_text_privacy privacyRe verifyTwiceText =
      [("SENSITIVE_KEYWORD", "verify your account")] ∧
    find_suspicious_text suspReVerifyTwice verifyTwiceText =
      [("verify your account", "🔒 Verification prompt")] := by
  refine ⟨?_, by decide, by decide⟩
  intro fi text
  by_cases ht : text = ""
  · simp [analyze_text_privacy, ht]
  · constructor
    · have hp := dedupPrivacy_pairwise (rawPrivacy fi text) []
      have hgoal : List.Pairwise (fun a b => ¬(a.1 = b.1 ∧ a.2 = b.2))
          (dedupPrivacy (rawPrivacy fi text) []) := by
        refine List.Pairwise.imp ?_ hp
        intro a b hab hcomp
        exact hab (Prod.ext hcomp.1 hcomp.2)
      simpa [analyze_text_privacy, ht] using hgoal
    · intro a ha
      simp only [analyze_text_privacy, if_neg ht] at ha
      obtain ⟨hmem, hne, _⟩ := dedupPrivacy_mem ha
      exact ⟨rawPrivacy_stripped fi text a hmem, hne⟩

theorem claim_C6_amended_witness :
    pyStrip "Password" = "Password" ∧ ("Password" : String) ≠ "" :=
  (claim_C6_privacy_dedup_amended.1 privacyRe "Password password").2
    ("SENSITIVE_KEYWORD", "Password") (by decide)
